import Mathlib

/-!
Verification of the bucket-lifecycle endpoint of the storj satellite
(`satellite/metainfo/endpoint_bucket.go`), as a shallow embedding.

Collaborator calls (authorization gate, bucket catalog, metabase,
piece deleter, project settings) are modelled as environment-supplied
results: every endpoint handler becomes a pure Lean function of an
environment record holding the outcome of each external call it makes,
in call order.  Machine `int64` values are modelled as `Int` (no
arithmetic is performed on them beyond comparisons, so overflow cannot
occur on the paths modelled here).
-/

namespace StorjBucket

/-- RPC status codes (`storj.io/common/rpc/rpcstatus`) used by the endpoint. -/
inductive StatusCode
  | invalidArgument
  | notFound
  | alreadyExists
  | resourceExhausted
  | failedPrecondition
  | internalErr
  | permissionDenied
  | unauthenticated
  deriving DecidableEq, Repr

/-- A Go `error` value as the endpoint observes it: either an error carrying
an rpc status (`rpcstatus.Error`), one of the two error classes the endpoint
inspects (`storj.ErrBucketNotFound`, `metainfo.ErrBucketNotEmpty`), or any
other collaborator failure carrying a message. -/
inductive GoErr
  | rpcErr (code : StatusCode) (msg : String)
  | bucketNotFound
  | bucketNotEmpty
  | other (msg : String)
  deriving DecidableEq, Repr

/-- The `err.Error()` string of a modelled Go error, used where the endpoint
wraps a collaborator error message into an rpc status error. -/
def GoErr.message : GoErr → String
  | .rpcErr _ m => m
  | .bucketNotFound => "bucket not found"
  | .bucketNotEmpty => "bucket not empty"
  | .other m => m

/-- Cipher suites from `pb.CipherSuite`; the endpoint only ever emits
`ENC_AESGCM`. -/
inductive CipherSuite
  | encUnspecified
  | encNull
  | encAesGcm
  | encSecretBox
  deriving DecidableEq, Repr

/-- The fields of `pb.RedundancyScheme` the endpoint reads
(`ErasureShareSize`, `MinReq`); the scheme is otherwise passed through
wholesale as the satellite default. -/
structure RedundancyScheme where
  erasureShareSize : Int
  minReq : Int
  total : Int
  repairShares : Int
  successShares : Int
  deriving DecidableEq, Repr

/-- `pb.EncryptionParameters`. -/
structure EncryptionParameters where
  cipherSuite : CipherSuite
  blockSize : Int
  deriving DecidableEq, Repr

/-- The minimal bucket record (`buckets.Bucket`): name and creation time.
Creation time is modelled as an integer timestamp. -/
structure Bucket where
  name : List UInt8
  createdAt : Int
  deriving DecidableEq, Repr

/-- The wire representation `pb.Bucket` as populated by this endpoint. -/
structure PbBucket where
  name : List UInt8
  createdAt : Int
  pathCipher : CipherSuite
  defaultSegmentSize : Int
  defaultRedundancyScheme : RedundancyScheme
  defaultEncryptionParameters : EncryptionParameters
  deriving DecidableEq, Repr

/-- `convertBucketToProto` (endpoint_bucket.go:391-409): converts a catalog
record into the wire shape.  Returns no payload for an empty/absent record;
otherwise copies only name and creation time from the record and fills every
encryption / redundancy / segment-size field from the satellite-wide
defaults.  The Go function's error return is always nil, so the model
returns `Option PbBucket`. -/
def convertBucketToProto (bucket : Bucket) (rs : RedundancyScheme)
    (maxSegmentSize : Int) : Option PbBucket :=
  if bucket.name = [] then
    none
  else
    some
      { name := bucket.name
        createdAt := bucket.createdAt
        pathCipher := .encAesGcm
        defaultSegmentSize := maxSegmentSize
        defaultRedundancyScheme := rs
        defaultEncryptionParameters :=
          { cipherSuite := .encAesGcm
            blockSize := rs.erasureShareSize * rs.minReq } }

/-- Resolved principal returned by the authorization gate
(`console.APIKeyInfo`): only the project id matters here. -/
structure KeyInfo where
  projectID : Nat
  deriving DecidableEq, Repr

/-- `pb.BucketGetRequest`. -/
structure BucketGetRequest where
  name : List UInt8
  deriving DecidableEq, Repr

/-- `pb.BucketGetResponse`. -/
structure BucketGetResponse where
  bucket : Option PbBucket
  deriving DecidableEq, Repr

/-- Environment for one `GetBucket` call: the outcome of the authorization
check and of the catalog lookup `buckets.GetMinimalBucket`, plus the
satellite defaults. -/
structure GetEnv where
  authResult : Except GoErr KeyInfo
  getBucket : Except GoErr Bucket
  rs : RedundancyScheme
  maxSegmentSize : Int

/-- `GetBucket` (endpoint_bucket.go:25-57): authorize with ActionRead, fetch
the minimal bucket record, translate NotFound, wrap any other lookup error
as Internal, and convert the record through the satellite defaults. -/
def GetBucketRun (env : GetEnv) (_req : BucketGetRequest) :
    Except GoErr BucketGetResponse :=
  match env.authResult with
  | .error e => .error e
  | .ok _ =>
    match env.getBucket with
    | .error .bucketNotFound =>
        .error (.rpcErr .notFound GoErr.bucketNotFound.message)
    | .error e => .error (.rpcErr .internalErr e.message)
    | .ok b =>
        .ok { bucket := convertBucketToProto b env.rs env.maxSegmentSize }

/-- `pb.BucketDeleteRequest`. -/
structure BucketDeleteRequest where
  name : List UInt8
  deleteAll : Bool
  deriving DecidableEq, Repr

/-- `pb.BucketDeleteResponse`: the (possibly absent) bucket snapshot and the
number of objects deleted.  The Go zero value is `{bucket := none,
deletedObjectsCount := 0}`. -/
structure BucketDeleteResponse where
  bucket : Option PbBucket
  deletedObjectsCount : Int
  deriving DecidableEq, Repr

/-- Which state mutations a run of the delete path attempted:
whether `endpoint.buckets.DeleteBucket` (catalog record removal) was ever
called, and whether `endpoint.metabase.DeleteBucketObjects` (the object
drain) was ever called. -/
structure DeleteEffects where
  catalogDeleteCalled : Bool := false
  drainCalled : Bool := false
  deriving DecidableEq, Repr

/-- Environment for one `DeleteBucket` call.  Collaborator outcomes appear in
call order; the two possible invocations of the internal `deleteBucket`
helper (the plain attempt, and the retry inside `deleteBucketNotEmpty`) get
separate outcomes since the world may change between them. -/
structure DeleteEnv where
  authResult : Except GoErr KeyInfo
  canRead : Bool
  canList : Bool
  validName : Bool
  getBucket : Except GoErr Bucket
  firstEmpty : Except GoErr Bool
  firstCatalogDelete : Except GoErr Unit
  drain : Except GoErr Int
  secondEmpty : Except GoErr Bool
  secondCatalogDelete : Except GoErr Unit
  rs : RedundancyScheme
  maxSegmentSize : Int

/-- `deleteBucket` (endpoint_bucket.go:236-248): check emptiness via the
metabase; a non-empty bucket yields `ErrBucketNotEmpty` without touching the
catalog; only an empty bucket reaches `buckets.DeleteBucket`.  Returns the
call result together with whether the catalog delete was called. -/
def deleteBucketHelper (empty : Except GoErr Bool)
    (catalogDelete : Except GoErr Unit) : Except GoErr Unit × Bool :=
  match empty with
  | .error e => (.error e, false)
  | .ok isEmpty =>
    if !isEmpty then
      (.error .bucketNotEmpty, false)
    else
      (catalogDelete, true)

/-- Per-deleted-segment info handed to the piece deleter
(`metabase.DeletedSegmentInfo`); its contents are irrelevant here. -/
structure DeletedSegmentInfo where
  rootPieceID : Nat
  deriving DecidableEq, Repr

/-- The `DeletePieces` callback the endpoint passes to
`metabase.DeleteBucketObjects` (endpoint_bucket.go:290-293): it forwards the
deleted segments to `deleteSegmentPieces` (a fire-and-forget notification
whose outcome is modelled by `notify` and discarded) and always reports
success, so notification failures can never abort the metadata walk. -/
def deletePiecesCallback (notify : List DeletedSegmentInfo → Except GoErr Unit)
    (deleted : List DeletedSegmentInfo) : Except GoErr Unit :=
  let _ := notify deleted
  .ok ()

/-- Result triple of `deleteBucketNotEmpty`: the returned bucket name, the
returned deleted-objects count, and the returned error, mirroring the Go
`([]byte, int64, error)`. -/
structure ForceDeleteResult where
  name : Option (List UInt8)
  count : Int
  err : Option GoErr
  deriving DecidableEq, Repr

/-- `deleteBucketNotEmpty` (endpoint_bucket.go:261-281): drain all objects
(`deleteBucketObjects`); a drain failure becomes Internal and the catalog is
never touched.  After a successful drain, retry `deleteBucket`:
`ErrBucketNotEmpty` becomes a FailedPrecondition carrying the drain count in
the Go return tuple; `ErrBucketNotFound` is swallowed as success with a
count of zero; other failures become Internal with the drain count.  The
boolean records whether the catalog delete was called during the retry. -/
def deleteBucketNotEmptyRun (env : DeleteEnv) (bucketName : List UInt8) :
    ForceDeleteResult × Bool :=
  match env.drain with
  | .error e =>
      ({ name := none, count := 0
         err := some (.rpcErr .internalErr e.message) }, false)
  | .ok deletedCount =>
    match deleteBucketHelper env.secondEmpty env.secondCatalogDelete with
    | (.error .bucketNotEmpty, called) =>
        ({ name := none, count := deletedCount
           err := some (.rpcErr .failedPrecondition
             "cannot delete the bucket because it's being used by another process") },
         called)
    | (.error .bucketNotFound, called) =>
        ({ name := some bucketName, count := 0, err := none }, called)
    | (.error e, called) =>
        ({ name := none, count := deletedCount
           err := some (.rpcErr .internalErr e.message) }, called)
    | (.ok _, called) =>
        ({ name := some bucketName, count := deletedCount, err := none }, called)

/-- `DeleteBucket` (endpoint_bucket.go:141-233): authorize Delete as the
mandatory action with Read and List as optional checks; validate the name;
fetch the bucket snapshot only when Read or List is granted (NotFound there
aborts with NotFound, other lookup errors are returned verbatim); then run
the internal `deleteBucket`.  On its failure: with neither Read nor List the
error is swallowed into an empty success; `ErrBucketNotEmpty` becomes
FailedPrecondition unless `deleteAll` is set and List is granted, in which
case `deleteBucketNotEmpty` runs and its count (but not its name) is used;
`ErrBucketNotFound` becomes success with the snapshot; anything else
becomes Internal. -/
def DeleteBucketRun (env : DeleteEnv) (req : BucketDeleteRequest) :
    Except GoErr BucketDeleteResponse × DeleteEffects :=
  match env.authResult with
  | .error e => (.error e, {})
  | .ok _keyInfo =>
  if !env.validName then
    (.error (.rpcErr .invalidArgument "invalid bucket name"), {})
  else
    let fetched : Except GoErr (Option PbBucket) :=
      if env.canRead || env.canList then
        match env.getBucket with
        | .error .bucketNotFound =>
            .error (.rpcErr .notFound GoErr.bucketNotFound.message)
        | .error e => .error e
        | .ok b => .ok (convertBucketToProto b env.rs env.maxSegmentSize)
      else
        .ok none
    match fetched with
    | .error e => (.error e, {})
    | .ok convBucket =>
      match deleteBucketHelper env.firstEmpty env.firstCatalogDelete with
      | (.ok _, called1) =>
          (.ok { bucket := convBucket, deletedObjectsCount := 0 },
           { catalogDeleteCalled := called1 })
      | (.error e, called1) =>
        if !env.canRead && !env.canList then
          (.ok { bucket := none, deletedObjectsCount := 0 },
           { catalogDeleteCalled := called1 })
        else
          match e with
          | .bucketNotEmpty =>
            if !req.deleteAll || !env.canList then
              (.error (.rpcErr .failedPrecondition GoErr.bucketNotEmpty.message),
               { catalogDeleteCalled := called1 })
            else
              match deleteBucketNotEmptyRun env req.name with
              | (res, called2) =>
                match res.err with
                | some e2 =>
                    (.error e2,
                     { catalogDeleteCalled := called1 || called2
                       drainCalled := true })
                | none =>
                    (.ok { bucket := convBucket, deletedObjectsCount := res.count },
                     { catalogDeleteCalled := called1 || called2
                       drainCalled := true })
          | .bucketNotFound =>
              (.ok { bucket := convBucket, deletedObjectsCount := 0 },
               { catalogDeleteCalled := called1 })
          | _ =>
              (.error (.rpcErr .internalErr e.message),
               { catalogDeleteCalled := called1 })

/-- A `uuid.UUID` value, abstracted to a natural number; `0` is the zero
UUID, so `IsZero u` is `u = 0`. -/
abbrev UUIDv := Nat

/-- `pb.BucketCreateRequest`: the bucket name and the raw partner-id bytes.
The request's redundancy/encryption preference fields are never read by
`convertProtoToBucket`, so they are modelled (and shown to be irrelevant)
by their absence from every output field except name and partner id. -/
structure BucketCreateRequest where
  name : List UInt8
  partnerId : List UInt8
  deriving DecidableEq, Repr

/-- `pb.BucketCreateResponse`. -/
structure BucketCreateResponse where
  bucket : Option PbBucket
  deriving DecidableEq, Repr

/-- The `storj.Bucket` record handed to `buckets.CreateBucket`. -/
structure StorjBucketRec where
  id : UUIDv
  name : List UInt8
  projectID : Nat
  partnerID : UUIDv
  deriving DecidableEq, Repr

/-- `convertProtoToBucket` (endpoint_bucket.go:367-389): generate a fresh
bucket id; call `partnerID.UnmarshalJSON(req.GetPartnerId())` on a
zero-initialised local — `parseErr` is whether that call returned an error
and `parsed` is the value the local holds afterwards; fail with
"Invalid uuid" only when the call errored AND the local is non-zero;
otherwise build the record with whatever the local holds. -/
def convertProtoToBucket (newUuid : Except String UUIDv) (parseErr : Bool)
    (parsed : UUIDv) (req : BucketCreateRequest) (projectID : Nat) :
    Except String StorjBucketRec :=
  match newUuid with
  | .error m => .error m
  | .ok bucketID =>
    if parseErr ∧ ¬ parsed = 0 then
      .error "Invalid uuid"
    else
      .ok { id := bucketID, name := req.name
            projectID := projectID, partnerID := parsed }

/-- The record `buckets.CreateBucket` reports back (`storj.Bucket` with the
creation time filled in); only name and creation time flow into the
response. -/
structure CreatedBucket where
  name : List UInt8
  created : Int
  deriving DecidableEq, Repr

/-- Whether a run of `CreateBucket` reached the catalog insertion
(`buckets.CreateBucket`). -/
structure CreateEffects where
  insertCalled : Bool := false
  deriving DecidableEq, Repr

/-- Environment for one `CreateBucket` call, collaborator outcomes in call
order.  `getMaxBuckets` yields `none` when the project has no override
(Go `*int` nil); `defaultMaxBuckets` is
`endpoint.config.ProjectLimits.MaxBuckets`. -/
structure CreateEnv where
  authResult : Except GoErr KeyInfo
  validName : Bool
  hasBucket : Except GoErr Bool
  attributionOnExisting : Except GoErr Unit
  getMaxBuckets : Except GoErr (Option Int)
  defaultMaxBuckets : Int
  countBuckets : Except GoErr Int
  newUuid : Except String UUIDv
  partnerParseErr : Bool
  partnerParsed : UUIDv
  createResult : Except GoErr CreatedBucket
  attributionOnCreated : Except GoErr Unit
  rs : RedundancyScheme
  maxSegmentSize : Int

/-- The message of the quota error
(`fmt.Sprintf("number of allocated buckets (%d) exceeded", ...)`); note the
Go code formats the system default limit into it even when a per-project
override applied. -/
def quotaMsg (defaultMaxBuckets : Int) : String :=
  "number of allocated buckets (" ++ toString defaultMaxBuckets ++ ") exceeded"

/-- `CreateBucket` (endpoint_bucket.go:60-138): authorize ActionWrite;
validate the name (InvalidArgument); check existence (Internal on lookup
failure; on an existing bucket, ensure attribution then AlreadyExists);
resolve the effective max-bucket limit (per-project override, else the
configured default) and the current count, both errors returned verbatim;
reject with ResourceExhausted when `count >= max`, before any insertion;
convert the request (InvalidArgument on failure); insert (Internal on
failure); ensure attribution (error verbatim); and answer with the created
record pushed through `convertBucketToProto` under the satellite
defaults. -/
def CreateBucketRun (env : CreateEnv) (req : BucketCreateRequest) :
    Except GoErr BucketCreateResponse × CreateEffects :=
  match env.authResult with
  | .error e => (.error e, {})
  | .ok keyInfo =>
  if !env.validName then
    (.error (.rpcErr .invalidArgument "invalid bucket name"), {})
  else
    match env.hasBucket with
    | .error e => (.error (.rpcErr .internalErr e.message), {})
    | .ok true =>
      match env.attributionOnExisting with
      | .error e => (.error e, {})
      | .ok _ => (.error (.rpcErr .alreadyExists "bucket already exists"), {})
    | .ok false =>
      match env.getMaxBuckets with
      | .error e => (.error e, {})
      | .ok maxOverride =>
        let maxBuckets := maxOverride.getD env.defaultMaxBuckets
        match env.countBuckets with
        | .error e => (.error e, {})
        | .ok bucketCount =>
          if bucketCount ≥ maxBuckets then
            (.error (.rpcErr .resourceExhausted (quotaMsg env.defaultMaxBuckets)), {})
          else
            match convertProtoToBucket env.newUuid env.partnerParseErr
                env.partnerParsed req keyInfo.projectID with
            | .error m => (.error (.rpcErr .invalidArgument m), {})
            | .ok _bucketReq =>
              match env.createResult with
              | .error _ =>
                  (.error (.rpcErr .internalErr "unable to create bucket"),
                   { insertCalled := true })
              | .ok created =>
                match env.attributionOnCreated with
                | .error e => (.error e, { insertCalled := true })
                | .ok _ =>
                    let conv := convertBucketToProto
                      { name := created.name, createdAt := created.created }
                      env.rs env.maxSegmentSize
                    (.ok { bucket := conv }, { insertCalled := true })

/-- `macaroon.ActionType` operations relevant to this endpoint. -/
inductive ActionOp
  | read
  | write
  | deleteOp
  | list
  deriving DecidableEq, Repr

/-- A `macaroon.Action`: operation, target bucket, request time.
`ListBuckets` builds its action with no bucket. -/
structure MacAction where
  op : ActionOp
  bucket : List UInt8
  time : Int
  deriving DecidableEq, Repr

/-- Modelled from the spec: the credential behind an API key as the
AuthorizationGate (§4.1) and the credential-verification collaborator see
it — which operations it grants, the resolved project, and the allow-list
of bucket names it derives per operation (`key.GetAllowedBuckets`).
Neither `validateAuth` nor `macaroon.APIKey` is under src/. -/
structure Credential where
  allowsRead : Bool
  allowsWrite : Bool
  allowsDelete : Bool
  allowsList : Bool
  projectID : Nat
  allowedForRead : List (List UInt8)
  allowedForList : List (List UInt8)
  deriving DecidableEq, Repr

/-- Whether the credential grants an operation. -/
def Credential.allows (c : Credential) : ActionOp → Bool
  | .read => c.allowsRead
  | .write => c.allowsWrite
  | .deleteOp => c.allowsDelete
  | .list => c.allowsList

/-- The allow-list of bucket names the credential derives for an operation
(only Read and List are ever requested by this endpoint). -/
def Credential.allowedFor (c : Credential) : ActionOp → List (List UInt8)
  | .read => c.allowedForRead
  | .list => c.allowedForList
  | _ => []

/-- Modelled from the spec: `validateAuth` (AuthorizationGate §4.1, not
under src/) — resolve the credential and check the mandatory action against
it at the supplied time; a credential lacking the capability is a
structured denial, surfaced as PermissionDenied. -/
def validateAuthModel (c : Credential) (a : MacAction) : Except GoErr KeyInfo :=
  if c.allows a.op then
    .ok { projectID := c.projectID }
  else
    .error (.rpcErr .permissionDenied "Unauthorized API credentials")

/-- Modelled from the spec: `key.GetAllowedBuckets` (the
credential-verification collaborator of §6, not under src/) — derive from
the credential the allow-list of bucket names for the given action's
operation. -/
def getAllowedBucketsModel (apiKeyOk : Bool) (c : Credential) (a : MacAction) :
    Except GoErr (List (List UInt8)) :=
  if !apiKeyOk then
    .error (.rpcErr .invalidArgument "Invalid API credentials")
  else
    .ok (c.allowedFor a.op)

/-- `pb.BucketListRequest`. -/
structure BucketListRequest where
  cursor : List UInt8
  limit : Int
  direction : Int
  deriving DecidableEq, Repr

/-- `pb.BucketListItem`: listing responses carry name and creation time
only. -/
structure BucketListItem where
  name : List UInt8
  createdAt : Int
  deriving DecidableEq, Repr

/-- `pb.BucketListResponse`. -/
structure BucketListResponse where
  items : List BucketListItem
  more : Bool
  deriving DecidableEq, Repr

/-- The catalog's answer to `buckets.ListBuckets`. -/
structure BucketList where
  items : List Bucket
  more : Bool
  deriving DecidableEq, Repr

/-- Environment for one `ListBuckets` call: the caller's credential, the
request time, whether the raw API key parses, and the catalog's response as
a function of the allow-list it is handed. -/
structure ListEnv where
  cred : Credential
  nowTime : Int
  apiKeyOk : Bool
  listResult : List (List UInt8) → Except GoErr BucketList

/-- `ListBuckets` (endpoint_bucket.go:300-343): build one action with
`Op: macaroon.ActionRead` (not ActionList — the source marks this as a
workaround) and no bucket; authorize with it; derive the allowed buckets
with the SAME action; list from the catalog under that allow-list; and map
each item to name + creation time. -/
def ListBucketsRun (env : ListEnv) (_req : BucketListRequest) :
    Except GoErr BucketListResponse :=
  let action : MacAction := { op := .read, bucket := [], time := env.nowTime }
  match validateAuthModel env.cred action with
  | .error e => .error e
  | .ok _keyInfo =>
    match getAllowedBucketsModel env.apiKeyOk env.cred action with
    | .error e => .error e
    | .ok allowedBuckets =>
      match env.listResult allowedBuckets with
      | .error e => .error e
      | .ok bucketList =>
          .ok { items := bucketList.items.map
                  (fun b => { name := b.name, createdAt := b.createdAt })
                more := bucketList.more }

/-! Theorems settling the specification claims. -/

/-- C3: for every bucket record with a non-empty name, the wire
representation produced on Get (and on Create's response) carries
encryption, redundancy, and segment-size fields equal to the current
system-wide defaults (AESGCM cipher, the configured redundancy scheme, the
configured max segment size), independent of any values stored in the
record or supplied by the client at create time: the conversion reads only
name and creation time from the record, `GetBucket` answers with exactly
that conversion under the satellite defaults, and `CreateBucket` answers
with the created record pushed through the same conversion. -/
theorem wire_fields_always_system_defaults :
    (∀ (b : Bucket) (rs : RedundancyScheme) (mss : Int), ¬ b.name = [] →
      convertBucketToProto b rs mss = some
        { name := b.name, createdAt := b.createdAt, pathCipher := .encAesGcm,
          defaultSegmentSize := mss, defaultRedundancyScheme := rs,
          defaultEncryptionParameters :=
            { cipherSuite := .encAesGcm,
              blockSize := rs.erasureShareSize * rs.minReq } })
    ∧
    (∀ (env : GetEnv) (req : BucketGetRequest) (k : KeyInfo) (b : Bucket),
      env.authResult = .ok k → env.getBucket = .ok b →
      GetBucketRun env req =
        .ok { bucket := convertBucketToProto b env.rs env.maxSegmentSize })
    ∧
    (∀ (env : CreateEnv) (req : BucketCreateRequest)
       (resp : BucketCreateResponse) (eff : CreateEffects)
       (created : CreatedBucket),
      env.createResult = .ok created →
      CreateBucketRun env req = (.ok resp, eff) →
      resp.bucket = convertBucketToProto
        { name := created.name, createdAt := created.created }
        env.rs env.maxSegmentSize) := by
  refine ⟨?_, ?_, ?_⟩
  · intro b rs mss hname
    simp [convertBucketToProto, hname]
  · intro env req k b hauth hget
    simp [GetBucketRun, hauth, hget]
  · intro env req resp eff created hcreated hrun
    unfold CreateBucketRun at hrun
    rw [hcreated] at hrun
    rcases h1 : env.authResult with e | ki <;> rw [h1] at hrun
    · simp at hrun
    rcases h2 : env.validName <;> simp only [h2, Bool.not_true, Bool.not_false,
      if_true, if_false] at hrun
    · simp at hrun
    rcases h3 : env.hasBucket with e | ex <;> rw [h3] at hrun
    · simp at hrun
    rcases ex
    · rcases h4 : env.getMaxBuckets with e | mo <;> rw [h4] at hrun
      · simp at hrun
      rcases h5 : env.countBuckets with e | n <;> rw [h5] at hrun
      · simp at hrun
      by_cases h6 : n ≥ mo.getD env.defaultMaxBuckets <;>
        simp only [h6, if_true, if_false] at hrun
      · simp at hrun
      rcases h7 : convertProtoToBucket env.newUuid env.partnerParseErr
          env.partnerParsed req ki.projectID with m | brec <;> rw [h7] at hrun
      · simp at hrun
      rcases h8 : env.attributionOnCreated with e | u <;> rw [h8] at hrun
      · simp at hrun
      simp only [Bool.not_true, Bool.false_eq_true, if_false, Prod.mk.injEq,
        Except.ok.injEq] at hrun
      rw [← hrun.1]
    · rcases h9 : env.attributionOnExisting with e | u <;> rw [h9] at hrun <;>
        simp at hrun

/-- Default redundancy scheme used by concrete witnesses. -/
def rsW : RedundancyScheme :=
  { erasureShareSize := 256, minReq := 4, total := 10
    repairShares := 6, successShares := 8 }

/-- Witness for C3: the conversion evaluated at a concrete record. -/
theorem wire_fields_always_system_defaults_witness :
    convertBucketToProto { name := [97], createdAt := 7 } rsW 64 = some
      { name := [97], createdAt := 7, pathCipher := .encAesGcm
        defaultSegmentSize := 64, defaultRedundancyScheme := rsW
        defaultEncryptionParameters :=
          { cipherSuite := .encAesGcm, blockSize := 1024 } } := by
  have h := wire_fields_always_system_defaults.1
    { name := [97], createdAt := 7 } rsW 64 (by decide)
  simpa [rsW] using h

/-- C4: for every DeleteBucket request on a non-empty bucket where
`deleteAll` is false or the credential lacks List permission (but grants
Read or List so errors are surfaced), the call fails with
FailedPrecondition and performs no partial action: the catalog delete is
never called and the object drain is never called, so neither the bucket
record nor any contained object is deleted. -/
theorem nonempty_delete_without_force_fails_without_action
    (env : DeleteEnv) (req : BucketDeleteRequest) (k : KeyInfo) (b : Bucket)
    (hauth : env.authResult = .ok k) (hvalid : env.validName = true)
    (hperm : env.canRead = true ∨ env.canList = true)
    (hget : env.getBucket = .ok b)
    (hne : env.firstEmpty = .ok false)
    (hflag : req.deleteAll = false ∨ env.canList = false) :
    DeleteBucketRun env req =
      (.error (.rpcErr .failedPrecondition GoErr.bucketNotEmpty.message),
       { catalogDeleteCalled := false, drainCalled := false }) := by
  rcases hperm with h | h
  · rcases hflag with h2 | h2 <;>
      simp [DeleteBucketRun, deleteBucketHelper, hauth, hvalid, hget, hne, h, h2]
  · rcases hflag with h2 | h2
    · simp [DeleteBucketRun, deleteBucketHelper, hauth, hvalid, hget, hne, h, h2]
    · rw [h] at h2
      exact absurd h2 (by decide)

/-- Witness for C4: a concrete non-empty-bucket delete without `deleteAll`
under a credential granting Read. -/
theorem nonempty_delete_without_force_fails_without_action_witness :
    DeleteBucketRun
      { authResult := .ok { projectID := 1 }, canRead := true, canList := false
        validName := true, getBucket := .ok { name := [97], createdAt := 7 }
        firstEmpty := .ok false, firstCatalogDelete := .ok ()
        drain := .ok 0, secondEmpty := .ok true, secondCatalogDelete := .ok ()
        rs := rsW, maxSegmentSize := 64 }
      { name := [97], deleteAll := false } =
      (.error (.rpcErr .failedPrecondition GoErr.bucketNotEmpty.message),
       { catalogDeleteCalled := false, drainCalled := false }) :=
  nonempty_delete_without_force_fails_without_action _ _
    { projectID := 1 } { name := [97], createdAt := 7 }
    rfl rfl (Or.inl rfl) rfl rfl (Or.inl rfl)

/-- C7: for every DeleteBucket request whose credential grants neither Read
nor List permission on the bucket, whenever the endpoint returns a
response at all, the response's bucket field is empty — and error returns
carry no response, so bucket metadata is never revealed. -/
theorem delete_response_withholds_bucket_without_read_or_list
    (env : DeleteEnv) (req : BucketDeleteRequest)
    (hread : env.canRead = false) (hlist : env.canList = false)
    (resp : BucketDeleteResponse) (eff : DeleteEffects)
    (hrun : DeleteBucketRun env req = (.ok resp, eff)) :
    resp.bucket = none := by
  unfold DeleteBucketRun at hrun
  rcases h1 : env.authResult with e | k <;> rw [h1] at hrun
  · simp at hrun
  rcases h2 : env.validName <;> rw [h2] at hrun
  · simp at hrun
  rcases hh : deleteBucketHelper env.firstEmpty env.firstCatalogDelete with ⟨r, c⟩
  rw [hread, hlist, hh] at hrun
  rcases r with e | u
  · simp at hrun
    rw [← hrun.1]
  · simp at hrun
    rw [← hrun.1]

/-- Witness for C7: a concrete delete-only credential run; the response
bucket field is empty. -/
theorem delete_response_withholds_bucket_without_read_or_list_witness :
    ({ bucket := none, deletedObjectsCount := 0 } :
        BucketDeleteResponse).bucket = none :=
  delete_response_withholds_bucket_without_read_or_list
    { authResult := .ok { projectID := 1 }, canRead := false, canList := false
      validName := true, getBucket := .ok { name := [97], createdAt := 7 }
      firstEmpty := .ok true, firstCatalogDelete := .ok ()
      drain := .ok 0, secondEmpty := .ok true, secondCatalogDelete := .ok ()
      rs := rsW, maxSegmentSize := 64 }
    { name := [97], deleteAll := false } rfl rfl
    { bucket := none, deletedObjectsCount := 0 }
    { catalogDeleteCalled := true, drainCalled := false } rfl

/-- C8: for every DeleteBucket request whose credential grants neither Read
nor List permission, any failure of the internal `deleteBucket` step —
non-empty, not-found, or any other collaborator error — is swallowed and
the endpoint answers with an empty successful response, indistinguishable
from a successful delete. -/
theorem delete_without_read_list_swallows_failures
    (env : DeleteEnv) (req : BucketDeleteRequest) (k : KeyInfo) (e : GoErr)
    (hauth : env.authResult = .ok k) (hvalid : env.validName = true)
    (hread : env.canRead = false) (hlist : env.canList = false)
    (hfail : (deleteBucketHelper env.firstEmpty env.firstCatalogDelete).1 =
      .error e) :
    (DeleteBucketRun env req).1 =
      .ok { bucket := none, deletedObjectsCount := 0 } := by
  unfold DeleteBucketRun
  rcases hh : deleteBucketHelper env.firstEmpty env.firstCatalogDelete with ⟨r, c⟩
  rw [hh] at hfail
  have hr : r = Except.error e := hfail
  subst hr
  simp [hauth, hvalid, hread, hlist, hh]

/-- Witness for C8: a concrete delete-only credential run where the bucket
is not empty; the failure is swallowed into an empty success. -/
theorem delete_without_read_list_swallows_failures_witness :
    (DeleteBucketRun
      { authResult := .ok { projectID := 1 }, canRead := false, canList := false
        validName := true, getBucket := .ok { name := [97], createdAt := 7 }
        firstEmpty := .ok false, firstCatalogDelete := .ok ()
        drain := .ok 0, secondEmpty := .ok true, secondCatalogDelete := .ok ()
        rs := rsW, maxSegmentSize := 64 }
      { name := [97], deleteAll := true }).1 =
      .ok { bucket := none, deletedObjectsCount := 0 } :=
  delete_without_read_list_swallows_failures _ _
    { projectID := 1 } .bucketNotEmpty rfl rfl rfl rfl rfl

/-- Environment of a concrete forced deletion hitting the NotFound race:
the walk deletes 3 objects, then the bucket-record delete finds the record
already gone (another caller removed it). -/
def envRaceNotFound : DeleteEnv :=
  { authResult := .ok { projectID := 1 }, canRead := false, canList := true
    validName := true, getBucket := .ok { name := [97], createdAt := 7 }
    firstEmpty := .ok false, firstCatalogDelete := .ok ()
    drain := .ok 3, secondEmpty := .ok true
    secondCatalogDelete := .error .bucketNotFound
    rs := rsW, maxSegmentSize := 64 }

/-- The request of the concrete forced deletions. -/
def reqRaceNotFound : BucketDeleteRequest := { name := [97], deleteAll := true }

/-- C1 counterexample: in a forced deletion whose walk removed 3 objects
and whose bucket-record delete then reported NotFound, the endpoint
answers success with a deleted-objects count of 0 — not the count 3 from
the walk, refuting the claim at this input. -/
theorem forced_delete_notfound_race_count_counterexample :
    envRaceNotFound.drain = .ok 3 ∧
    (DeleteBucketRun envRaceNotFound reqRaceNotFound).1 =
      .ok { bucket := some
              { name := [97], createdAt := 7, pathCipher := .encAesGcm
                defaultSegmentSize := 64, defaultRedundancyScheme := rsW
                defaultEncryptionParameters :=
                  { cipherSuite := .encAesGcm, blockSize := 1024 } }
            deletedObjectsCount := 0 } ∧
    ¬ (0 : Int) = 3 :=
  ⟨rfl, rfl, by decide⟩

/-- C1 amended: for every forced deletion in which the walk completes and
the subsequent bucket-record delete reports NotFound, the operation is
treated as success and answers with the previously fetched bucket snapshot
(carrying the bucket name) but with a deleted-objects count of zero — the
count from the walk is discarded on this race. -/
theorem forced_delete_notfound_race_success_zero_count
    (env : DeleteEnv) (req : BucketDeleteRequest) (k : KeyInfo) (b : Bucket)
    (n : Int)
    (hauth : env.authResult = .ok k) (hvalid : env.validName = true)
    (hlist : env.canList = true) (hget : env.getBucket = .ok b)
    (hall : req.deleteAll = true) (hne : env.firstEmpty = .ok false)
    (hdrain : env.drain = .ok n) (hse : env.secondEmpty = .ok true)
    (hsd : env.secondCatalogDelete = .error .bucketNotFound) :
    (DeleteBucketRun env req).1 =
      .ok { bucket := convertBucketToProto b env.rs env.maxSegmentSize
            deletedObjectsCount := 0 } := by
  simp [DeleteBucketRun, deleteBucketNotEmptyRun, deleteBucketHelper,
    hauth, hvalid, hlist, hget, hall, hne, hdrain, hse, hsd]

/-- Witness for amended C1: the concrete NotFound-race run succeeds with
count zero. -/
theorem forced_delete_notfound_race_success_zero_count_witness :
    (DeleteBucketRun envRaceNotFound reqRaceNotFound).1 =
      .ok { bucket := convertBucketToProto { name := [97], createdAt := 7 }
              rsW 64
            deletedObjectsCount := 0 } :=
  forced_delete_notfound_race_success_zero_count
    envRaceNotFound reqRaceNotFound { projectID := 1 }
    { name := [97], createdAt := 7 } 3 rfl rfl rfl rfl rfl rfl rfl rfl rfl

/-- Environment of a concrete forced deletion hitting the NotEmpty race:
the walk deletes 3 objects, then the bucket is non-empty again (new writes
landed during the race window). -/
def envRaceNotEmpty : DeleteEnv :=
  { authResult := .ok { projectID := 1 }, canRead := false, canList := true
    validName := true, getBucket := .ok { name := [98], createdAt := 7 }
    firstEmpty := .ok false, firstCatalogDelete := .ok ()
    drain := .ok 3, secondEmpty := .ok false
    secondCatalogDelete := .ok ()
    rs := rsW, maxSegmentSize := 64 }

/-- The request of the concrete NotEmpty-race forced deletion. -/
def reqRaceNotEmpty : BucketDeleteRequest := { name := [98], deleteAll := true }

/-- C2 counterexample: in a forced deletion whose walk removed 3 objects
and whose bucket-record delete then found the bucket non-empty again, the
endpoint returns only a FailedPrecondition error and no response value at
all, even though the internal helper reported the count 3 — so the caller
does not receive the count, refuting the claim at this input. -/
theorem forced_delete_notempty_race_counterexample :
    envRaceNotEmpty.drain = .ok 3 ∧
    (deleteBucketNotEmptyRun envRaceNotEmpty reqRaceNotEmpty.name).1.count = 3 ∧
    DeleteBucketRun envRaceNotEmpty reqRaceNotEmpty =
      (.error (.rpcErr .failedPrecondition
         "cannot delete the bucket because it's being used by another process"),
       { catalogDeleteCalled := false, drainCalled := true }) :=
  ⟨rfl, rfl, rfl⟩

/-- C2 amended: for every forced deletion in which the walk completes but
the subsequent bucket-record delete reports the bucket non-empty again,
the caller receives a retryable FailedPrecondition error; the count of
objects removed during the walk is returned by the internal
`deleteBucketNotEmpty` alongside the error but is discarded by
`DeleteBucket`, which returns no response value, so the count is not
delivered to the caller. -/
theorem forced_delete_notempty_race_failed_precondition
    (env : DeleteEnv) (req : BucketDeleteRequest) (k : KeyInfo) (b : Bucket)
    (n : Int)
    (hauth : env.authResult = .ok k) (hvalid : env.validName = true)
    (hlist : env.canList = true) (hget : env.getBucket = .ok b)
    (hall : req.deleteAll = true) (hne : env.firstEmpty = .ok false)
    (hdrain : env.drain = .ok n) (hse : env.secondEmpty = .ok false) :
    (DeleteBucketRun env req).1 =
      .error (.rpcErr .failedPrecondition
        "cannot delete the bucket because it's being used by another process") ∧
    (deleteBucketNotEmptyRun env req.name).1.count = n := by
  constructor <;>
    simp [DeleteBucketRun, deleteBucketNotEmptyRun, deleteBucketHelper,
      hauth, hvalid, hlist, hget, hall, hne, hdrain, hse]

/-- Witness for amended C2: the concrete NotEmpty-race run yields the
FailedPrecondition error while the helper carried the count 3. -/
theorem forced_delete_notempty_race_failed_precondition_witness :
    (DeleteBucketRun envRaceNotEmpty reqRaceNotEmpty).1 =
      .error (.rpcErr .failedPrecondition
        "cannot delete the bucket because it's being used by another process") ∧
    (deleteBucketNotEmptyRun envRaceNotEmpty reqRaceNotEmpty.name).1.count = 3 :=
  forced_delete_notempty_race_failed_precondition
    envRaceNotEmpty reqRaceNotEmpty { projectID := 1 }
    { name := [98], createdAt := 7 } 3 rfl rfl rfl rfl rfl rfl rfl rfl

/-- C6: in every forced deletion, the bucket record is never removed from
the catalog before the object-deletion walk has completed without error:
a failing drain yields an Internal error with the catalog delete never
called; the catalog delete being called implies the drain returned
successfully; and the piece-deletion callback always reports success, so
notification failures never abort the drain. -/
theorem forced_delete_drain_gates_record_removal :
    (∀ (env : DeleteEnv) (name : List UInt8) (e : GoErr),
      env.drain = .error e →
      deleteBucketNotEmptyRun env name =
        ({ name := none, count := 0
           err := some (.rpcErr .internalErr e.message) }, false))
    ∧
    (∀ (env : DeleteEnv) (name : List UInt8),
      (deleteBucketNotEmptyRun env name).2 = true →
      ∃ n, env.drain = .ok n)
    ∧
    (∀ (notify : List DeletedSegmentInfo → Except GoErr Unit)
       (deleted : List DeletedSegmentInfo),
      deletePiecesCallback notify deleted = .ok ()) := by
  refine ⟨?_, ?_, ?_⟩
  · intro env name e hd
    simp [deleteBucketNotEmptyRun, hd]
  · intro env name h
    rcases hd : env.drain with e | n
    · simp [deleteBucketNotEmptyRun, hd] at h
    · exact ⟨n, rfl⟩

  · intro notify deleted
    rfl

/-- Environment of a concrete forced deletion whose drain fails. -/
def envDrainFail : DeleteEnv :=
  { authResult := .ok { projectID := 1 }, canRead := false, canList := true
    validName := true, getBucket := .ok { name := [99], createdAt := 7 }
    firstEmpty := .ok false, firstCatalogDelete := .ok ()
    drain := .error (.other "metabase down"), secondEmpty := .ok true
    secondCatalogDelete := .ok ()
    rs := rsW, maxSegmentSize := 64 }

/-- Environment of a concrete forced deletion whose drain and record
removal both succeed. -/
def envForceOk : DeleteEnv :=
  { authResult := .ok { projectID := 1 }, canRead := false, canList := true
    validName := true, getBucket := .ok { name := [99], createdAt := 7 }
    firstEmpty := .ok false, firstCatalogDelete := .ok ()
    drain := .ok 2, secondEmpty := .ok true
    secondCatalogDelete := .ok ()
    rs := rsW, maxSegmentSize := 64 }

/-- Witness for C6: a failing drain leaves the catalog untouched; a run
that did call the catalog delete had a successful drain; a failing
notification still yields a successful callback. -/
theorem forced_delete_drain_gates_record_removal_witness :
    deleteBucketNotEmptyRun envDrainFail [99] =
      ({ name := none, count := 0
         err := some (.rpcErr .internalErr "metabase down") }, false) ∧
    (∃ n, envForceOk.drain = .ok n) ∧
    deletePiecesCallback (fun _ => .error (.other "piece deleter down")) [] =
      .ok () :=
  ⟨forced_delete_drain_gates_record_removal.1 envDrainFail [99]
      (.other "metabase down") rfl,
   forced_delete_drain_gates_record_removal.2.1 envForceOk [99] rfl,
   forced_delete_drain_gates_record_removal.2.2 _ _⟩

/-- C5: for every CreateBucket request that passes authorization, name
validation, and the uniqueness check, the request fails with
ResourceExhausted if and only if the project's current bucket count is at
least its effective maximum — the per-project override when set, else the
configured system default — and the catalog insertion is only ever reached
when the count is below that maximum.  (The hypothesis on the attribution
collaborator rules out it returning the quota error verbatim itself.) -/
theorem create_quota_check_before_insert
    (env : CreateEnv) (req : BucketCreateRequest) (k : KeyInfo)
    (mo : Option Int) (n : Int)
    (hauth : env.authResult = .ok k) (hvalid : env.validName = true)
    (hhas : env.hasBucket = .ok false)
    (hmax : env.getMaxBuckets = .ok mo)
    (hcount : env.countBuckets = .ok n)
    (hattr : ∀ m, ¬ env.attributionOnCreated =
      .error (.rpcErr .resourceExhausted m)) :
    ((CreateBucketRun env req).1 =
        .error (.rpcErr .resourceExhausted (quotaMsg env.defaultMaxBuckets)) ↔
      n ≥ mo.getD env.defaultMaxBuckets)
    ∧ ((CreateBucketRun env req).2.insertCalled = true →
        n < mo.getD env.defaultMaxBuckets) := by
  by_cases hq : n ≥ mo.getD env.defaultMaxBuckets
  · constructor
    · simp [CreateBucketRun, hauth, hvalid, hhas, hmax, hcount, hq]
    · intro h
      exfalso
      simp [CreateBucketRun, hauth, hvalid, hhas, hmax, hcount, hq] at h
  · have hlt : n < mo.getD env.defaultMaxBuckets := lt_of_not_ge hq
    constructor
    · constructor
      · intro h
        exfalso
        rcases h7 : convertProtoToBucket env.newUuid env.partnerParseErr
            env.partnerParsed req k.projectID with m | brec
        · simp [CreateBucketRun, hauth, hvalid, hhas, hmax, hcount, hq, h7] at h
        · rcases h8 : env.createResult with e | cr
          · simp [CreateBucketRun, hauth, hvalid, hhas, hmax, hcount, hq,
              h7, h8] at h
          · rcases h9 : env.attributionOnCreated with e2 | u
            · simp [CreateBucketRun, hauth, hvalid, hhas, hmax, hcount, hq,
                h7, h8, h9] at h
              exact hattr (quotaMsg env.defaultMaxBuckets) (by rw [h9, h])
            · simp [CreateBucketRun, hauth, hvalid, hhas, hmax, hcount, hq,
                h7, h8, h9] at h
      · intro h
        exact absurd h hq
    · intro _
      exact hlt

/-- Environment of a concrete create hitting the quota: the project holds
2 buckets and its per-project override is 2 (system default 100). -/
def envQuota : CreateEnv :=
  { authResult := .ok { projectID := 1 }, validName := true
    hasBucket := .ok false, attributionOnExisting := .ok ()
    getMaxBuckets := .ok (some 2), defaultMaxBuckets := 100
    countBuckets := .ok 2, newUuid := .ok 5, partnerParseErr := false
    partnerParsed := 0, createResult := .ok { name := [97], created := 7 }
    attributionOnCreated := .ok (), rs := rsW, maxSegmentSize := 64 }

/-- Witness for C5: at the concrete quota-bound environment, the run is
rejected with ResourceExhausted exactly because 2 ≥ 2, and the insertion
is not reached. -/
theorem create_quota_check_before_insert_witness :
    ((CreateBucketRun envQuota { name := [97], partnerId := [] }).1 =
        .error (.rpcErr .resourceExhausted
          (quotaMsg envQuota.defaultMaxBuckets)) ↔
      (2 : Int) ≥ (some (2 : Int)).getD envQuota.defaultMaxBuckets)
    ∧ ((CreateBucketRun envQuota { name := [97], partnerId := [] }).2.insertCalled
        = true →
      (2 : Int) < (some (2 : Int)).getD envQuota.defaultMaxBuckets) :=
  create_quota_check_before_insert envQuota { name := [97], partnerId := [] }
    { projectID := 1 } (some 2) 2 rfl rfl rfl rfl rfl
    (fun m hcontra => by simp [envQuota] at hcontra)

/-- C9: `convertProtoToBucket` returns its "Invalid uuid" error exactly
when the partner-id unmarshal failed AND left the local UUID non-zero;
whenever a failed parse leaves the UUID at its zero value the record is
built anyway, and `CreateBucket` then never fails with InvalidArgument
"Invalid uuid" (the inequality hypotheses rule out the collaborators whose
errors are passed through verbatim returning that exact error
themselves). -/
theorem invalid_uuid_error_requires_nonzero_partner :
    (∀ (bid : UUIDv) (parseErr : Bool) (parsed : UUIDv)
       (req : BucketCreateRequest) (pid : Nat),
      (convertProtoToBucket (.ok bid) parseErr parsed req pid =
          .error "Invalid uuid") ↔ (parseErr = true ∧ ¬ parsed = 0))
    ∧
    (∀ (bid : UUIDv) (parseErr : Bool) (req : BucketCreateRequest)
       (pid : Nat),
      convertProtoToBucket (.ok bid) parseErr 0 req pid =
        .ok { id := bid, name := req.name, projectID := pid, partnerID := 0 })
    ∧
    (∀ (env : CreateEnv) (req : BucketCreateRequest) (bid : UUIDv),
      env.newUuid = .ok bid → env.partnerParsed = 0 →
      ¬ env.authResult = .error (.rpcErr .invalidArgument "Invalid uuid") →
      ¬ env.attributionOnExisting =
        .error (.rpcErr .invalidArgument "Invalid uuid") →
      ¬ env.getMaxBuckets = .error (.rpcErr .invalidArgument "Invalid uuid") →
      ¬ env.countBuckets = .error (.rpcErr .invalidArgument "Invalid uuid") →
      ¬ env.attributionOnCreated =
        .error (.rpcErr .invalidArgument "Invalid uuid") →
      ¬ (CreateBucketRun env req).1 =
        .error (.rpcErr .invalidArgument "Invalid uuid")) := by
  refine ⟨?_, ?_, ?_⟩
  · intro bid parseErr parsed req pid
    by_cases hc : parseErr = true ∧ ¬ parsed = 0 <;>
      simp [convertProtoToBucket, hc]
  · intro bid parseErr req pid
    simp [convertProtoToBucket]
  · intro env req bid hnew hparsed hA hB hC hD hE
    rcases h1 : env.authResult with e | k
    · simp [CreateBucketRun, h1]
      intro heq
      exact hA (by rw [h1, heq])
    rcases h2 : env.validName
    · simp [CreateBucketRun, h1, h2]
    rcases h3 : env.hasBucket with e | ex
    · simp [CreateBucketRun, h1, h2, h3]
    rcases ex
    · rcases h4 : env.getMaxBuckets with e | mo
      · simp [CreateBucketRun, h1, h2, h3, h4]
        intro heq
        exact hC (by rw [h4, heq])
      rcases h5 : env.countBuckets with e | n
      · simp [CreateBucketRun, h1, h2, h3, h4, h5]
        intro heq
        exact hD (by rw [h5, heq])
      by_cases hq : n ≥ mo.getD env.defaultMaxBuckets
      · simp [CreateBucketRun, h1, h2, h3, h4, h5, hq]
      have hconv : convertProtoToBucket env.newUuid env.partnerParseErr
          env.partnerParsed req k.projectID =
          .ok { id := bid, name := req.name, projectID := k.projectID
                partnerID := 0 } := by
        rw [hnew, hparsed]
        simp [convertProtoToBucket]
      rcases h8 : env.createResult with e | cr
      · simp [CreateBucketRun, h1, h2, h3, h4, h5, hq, hconv, h8]
      rcases h9 : env.attributionOnCreated with e2 | u
      · simp [CreateBucketRun, h1, h2, h3, h4, h5, hq, hconv, h8, h9]
        intro heq
        exact hE (by rw [h9, heq])
      · simp [CreateBucketRun, h1, h2, h3, h4, h5, hq, hconv, h8, h9]
    · rcases h6 : env.attributionOnExisting with e | u
      · simp [CreateBucketRun, h1, h2, h3, h6]
        intro heq
        exact hB (by rw [h6, heq])
      · simp [CreateBucketRun, h1, h2, h3, h6]

/-- Environment of a concrete create whose partner-id bytes fail to parse
but leave the local UUID zero. -/
def envBadPartner : CreateEnv :=
  { authResult := .ok { projectID := 1 }, validName := true
    hasBucket := .ok false, attributionOnExisting := .ok ()
    getMaxBuckets := .ok none, defaultMaxBuckets := 100
    countBuckets := .ok 0, newUuid := .ok 5, partnerParseErr := true
    partnerParsed := 0, createResult := .ok { name := [97], created := 7 }
    attributionOnCreated := .ok (), rs := rsW, maxSegmentSize := 64 }

/-- Witness for C9: a failed parse that left zero is silently accepted
(iff instance, accepted record, and no InvalidArgument from the full
run). -/
theorem invalid_uuid_error_requires_nonzero_partner_witness :
    ((convertProtoToBucket (.ok 5) true 0 { name := [97], partnerId := [120] } 1
        = .error "Invalid uuid") ↔ (true = true ∧ ¬ (0 : UUIDv) = 0)) ∧
    (convertProtoToBucket (.ok 5) true 0 { name := [97], partnerId := [120] } 1
      = .ok { id := 5, name := [97], projectID := 1, partnerID := 0 }) ∧
    ¬ (CreateBucketRun envBadPartner { name := [97], partnerId := [120] }).1 =
      .error (.rpcErr .invalidArgument "Invalid uuid") :=
  ⟨invalid_uuid_error_requires_nonzero_partner.1 5 true 0
      { name := [97], partnerId := [120] } 1,
   invalid_uuid_error_requires_nonzero_partner.2.1 5 true
      { name := [97], partnerId := [120] } 1,
   invalid_uuid_error_requires_nonzero_partner.2.2 envBadPartner
      { name := [97], partnerId := [120] } 5 rfl rfl
      (fun h => by simp [envBadPartner] at h)
      (fun h => by simp [envBadPartner] at h)
      (fun h => by simp [envBadPartner] at h)
      (fun h => by simp [envBadPartner] at h)
      (fun h => by simp [envBadPartner] at h)⟩

/-- C10: `ListBuckets` authorizes the request and derives the allowed
bucket set using the Read action rather than the List action: with a valid
API key, a credential granting Read passes authorization and the catalog
is consulted under the Read-derived allow-list, while a credential not
granting Read (in particular one granting only List) is denied. -/
theorem listBuckets_authorizes_with_read_action
    (env : ListEnv) (req : BucketListRequest) (hkey : env.apiKeyOk = true) :
    (∀ bl, env.cred.allowsRead = true →
      env.listResult env.cred.allowedForRead = .ok bl →
      ListBucketsRun env req =
        .ok { items := bl.items.map
                (fun b => { name := b.name, createdAt := b.createdAt })
              more := bl.more })
    ∧
    (env.cred.allowsRead = false →
      ListBucketsRun env req =
        .error (.rpcErr .permissionDenied "Unauthorized API credentials")) := by
  constructor
  · intro bl h hl
    simp [ListBucketsRun, validateAuthModel, getAllowedBucketsModel,
      Credential.allows, Credential.allowedFor, hkey, h, hl]
  · intro h
    simp [ListBucketsRun, validateAuthModel, Credential.allows, h]

/-- A credential granting only Read, allowed the bucket "a" for Read. -/
def credReadOnly : Credential :=
  { allowsRead := true, allowsWrite := false, allowsDelete := false
    allowsList := false, projectID := 1
    allowedForRead := [[97]], allowedForList := [] }

/-- A credential granting only List. -/
def credListOnly : Credential :=
  { allowsRead := false, allowsWrite := false, allowsDelete := false
    allowsList := true, projectID := 1
    allowedForRead := [], allowedForList := [[97]] }

/-- Listing environment under the Read-only credential: the catalog
answers with one bucket. -/
def envListRead : ListEnv :=
  { cred := credReadOnly, nowTime := 0, apiKeyOk := true
    listResult := fun _ =>
      .ok { items := [{ name := [97], createdAt := 7 }], more := false } }

/-- Listing environment under the List-only credential. -/
def envListOnly : ListEnv :=
  { cred := credListOnly, nowTime := 0, apiKeyOk := true
    listResult := fun _ =>
      .ok { items := [{ name := [97], createdAt := 7 }], more := false } }

/-- Witness for C10: the Read-only credential lists successfully; the
List-only credential is denied. -/
theorem listBuckets_authorizes_with_read_action_witness :
    ListBucketsRun envListRead { cursor := [], limit := 10, direction := 2 } =
      .ok { items := [{ name := [97], createdAt := 7 }], more := false } ∧
    ListBucketsRun envListOnly { cursor := [], limit := 10, direction := 2 } =
      .error (.rpcErr .permissionDenied "Unauthorized API credentials") :=
  ⟨(listBuckets_authorizes_with_read_action envListRead
      { cursor := [], limit := 10, direction := 2 } rfl).1
      { items := [{ name := [97], createdAt := 7 }], more := false } rfl rfl,
   (listBuckets_authorizes_with_read_action envListOnly
      { cursor := [], limit := 10, direction := 2 } rfl).2 rfl⟩

end StorjBucket
